import Mathlib

/-!
Shallow embedding of `src/servers/weather_server.py` and proofs about the
registered tool handler `get_weather`.

The handler body is the single statement
`return f"It\x27s always sunny in {location}"`, a Python f-string made of one
literal fragment and one interpolated expression of type `str`.
-/

/-- One fragment of a Python f-string: either a literal run of characters, or
an interpolated expression whose value is a `str` (formatted with an empty
format spec). -/
inductive FPart where
  | lit : String → FPart
  | expr : String → FPart
deriving DecidableEq

/-- Formatting a Python `str` with an empty format spec is the identity. -/
def formatStr (s : String) : String := s

/-- Evaluation of a Python f-string: the fragments are formatted and
concatenated left to right. -/
def evalFParts : List FPart → String
  | [] => ""
  | FPart.lit s :: ps => s ++ evalFParts ps
  | FPart.expr s :: ps => formatStr s ++ evalFParts ps

/-- The handler registered under the tool name `get_weather`
(weather_server.py, lines 6-12).  Its body is
`return f"It\x27s always sunny in {location}"`: a literal fragment followed
by the interpolation of `location`. -/
def get_weather (location : String) : String :=
  evalFParts [FPart.lit "It\x27s always sunny in ", FPart.expr location]

/-- State-passing form of the handler.  The body is a single `return` of a
pure expression: it reads no process state and writes none, so the ambient
state `σ` of arbitrary type `S` flows through unchanged. -/
def get_weather_st (S : Type) (σ : S) (location : String) : String × S :=
  (get_weather location, σ)

/-- A raised Python exception (carrying its message). -/
inductive PyErr where
  | exc : String → PyErr
deriving DecidableEq

/-- Exception-monad form of the handler: the body performs no fallible
operation (string formatting of a `str` cannot raise), so the translation of
the single `return` statement is `pure` in `Except PyErr`. -/
def get_weather_exc (location : String) : Except PyErr String :=
  pure (get_weather location)

/-- An async computation, shallowly: `ret v` finishes immediately with value
`v`; `awaitThen k` suspends at an `await` point and then continues as `k`. -/
inductive AsyncComp (α : Type) where
  | ret : α → AsyncComp α
  | awaitThen : AsyncComp α → AsyncComp α
deriving DecidableEq

/-- Number of suspension points an async computation passes before it
finishes. -/
def AsyncComp.suspensions {α : Type} : AsyncComp α → Nat
  | .ret _ => 0
  | .awaitThen k => 1 + k.suspensions

/-- The `async def get_weather` body as an async computation: the body
contains no `await`, so it is a single immediate `ret`. -/
def get_weather_async (location : String) : AsyncComp String :=
  AsyncComp.ret (get_weather location)

/-- Unfolding of the f-string evaluation in the handler body. -/
theorem get_weather_eq (L : String) :
    get_weather L = "It\x27s always sunny in " ++ L := by
  simp [get_weather, evalFParts, formatStr, String.append_empty]

theorem get_weather_data (L : String) :
    (get_weather L).data = ("It\x27s always sunny in ").data ++ L.data := by
  rw [get_weather_eq]
  exact String.data_append ..

theorem template_data_length : ("It\x27s always sunny in ").data.length = 21 := by
  decide

/-- Claim C1: for every string `L`, invoking the handler `get_weather` with
`location = L` returns exactly the string `It\x27s always sunny in ` ++ `L`
(the literal template with `L` substituted). -/
theorem get_weather_returns_template (L : String) :
    get_weather L = "It\x27s always sunny in " ++ L :=
  get_weather_eq L

/-- Claim C2, as stated in the spec, is false: at the concrete input `""` the
returned string has length 21, not `len("") + 22 = 22`. -/
theorem get_weather_length_claim_cex :
    ¬ ((get_weather "").length = "".length + 22) := by
  decide

/-- Claim C2 (amended): for every string input `L`, the length of the string
returned by `get_weather L` equals `L.length + 21` (the fixed template has 21
characters, not 22). -/
theorem get_weather_length (L : String) :
    (get_weather L).length = L.length + 21 := by
  have h := congrArg List.length (get_weather_data L)
  rw [List.length_append, template_data_length] at h
  calc (get_weather L).length = (get_weather L).data.length := rfl
    _ = L.data.length + 21 := by omega
    _ = L.length + 21 := rfl

/-- Claim C3: the handler applies no escaping, trimming or transformation:
for every string `L` the characters of `L` appear verbatim (as the trailing
segment of the output characters), and concretely
`get_weather "São Paulo" = "It\x27s always sunny in São Paulo"`. -/
theorem get_weather_verbatim :
    (∀ L : String,
      (get_weather L).data = ("It\x27s always sunny in ").data ++ L.data) ∧
    get_weather "São Paulo" = "It\x27s always sunny in São Paulo" := by
  refine ⟨get_weather_data, ?_⟩
  decide

/-- Claim C4: invoking `get_weather` with the empty string returns exactly
the fixed template `It\x27s always sunny in ` (trailing space, nothing
after it). -/
theorem get_weather_empty : get_weather "" = "It\x27s always sunny in " := by
  decide

/-- Claim C5: for every string input `L`, the result of `get_weather L` is a
non-empty string and contains `L` as a substring (a contiguous segment of its
characters). -/
theorem get_weather_nonempty_contains (L : String) :
    get_weather L ≠ "" ∧
    ∃ u v : List Char, (get_weather L).data = u ++ L.data ++ v := by
  constructor
  · intro h
    have h' := congrArg String.length h
    rw [get_weather_length] at h'
    rw [show ("" : String).length = 0 from rfl] at h'
    omega
  · exact ⟨("It\x27s always sunny in ").data, [], by
      rw [get_weather_data, List.append_nil]⟩

/-- Claim C6: the handler is deterministic and side-effect free: in the
state-passing embedding, two invocations with the same input yield identical
outputs whatever the ambient state, the output never depends on the state,
and the state is returned unchanged. -/
theorem get_weather_pure (S : Type) (σ₁ σ₂ : S) (L : String) :
    (get_weather_st S σ₁ L).1 = (get_weather_st S σ₂ L).1 ∧
    (get_weather_st S σ₁ L).2 = σ₁ ∧
    (get_weather_st S σ₁ L).1 = get_weather L :=
  ⟨rfl, rfl, rfl⟩

/-- Claim C7: the handler signals no error for any string input: in the
exception-monad embedding its result is always `Except.ok`, never
`Except.error`. -/
theorem get_weather_no_error (L : String) :
    get_weather_exc L = Except.ok (get_weather L) ∧
    ∀ e : PyErr, get_weather_exc L ≠ Except.error e := by
  exact ⟨rfl, fun e h => by simp [get_weather_exc, pure, Except.pure] at h⟩

/-- Claim C8: the handler terminates for every string input without ever
suspending: its async embedding passes zero suspension points and finishes
immediately with the returned string. -/
theorem get_weather_never_suspends (L : String) :
    (get_weather_async L).suspensions = 0 ∧
    get_weather_async L = AsyncComp.ret (get_weather L) :=
  ⟨rfl, rfl⟩

/-- Claim C9: every output of `get_weather` starts with the fixed
21-character template, and dropping those 21 characters from
`get_weather L` recovers `L` exactly. -/
theorem get_weather_round_trip (L : String) :
    (get_weather L).take 21 = "It\x27s always sunny in " ∧
    (get_weather L).drop 21 = L := by
  constructor
  · apply String.ext
    rw [String.data_take, get_weather_data, ← template_data_length,
      List.take_left]
  · apply String.ext
    rw [String.data_drop, get_weather_data, ← template_data_length,
      List.drop_left]

/-- Claim C10: `get_weather` is injective: distinct inputs yield distinct
outputs, so the input is fully recoverable from the output. -/
theorem get_weather_injective (L₁ L₂ : String) (h : L₁ ≠ L₂) :
    get_weather L₁ ≠ get_weather L₂ := by
  intro he
  apply h
  have hd := congrArg String.data he
  rw [get_weather_data, get_weather_data] at hd
  exact String.ext (List.append_cancel_left hd)

/-- Witness for claim C10 at the concrete inputs `"Paris"` and `"Lima"`. -/
theorem get_weather_injective_witness :
    ("Paris" : String) ≠ "Lima" ∧ get_weather "Paris" ≠ get_weather "Lima" :=
  ⟨by decide, get_weather_injective "Paris" "Lima" (by decide)⟩
